import Mathlib

/-!
Shallow embedding of the azure-resourcemanager-exporter collection pipeline
(src/metrics_azurerm_resources.go and the unnamed source part containing the
GraphApps and IAM collectors), together with a model of the MetricSet /
MetricPublisher operations of the metrics helper libraries, which are not
part of this repository's sources and are therefore modelled from the spec.
-/

/-- A Prometheus label set.  The source builds each label set as a single
map literal with a fixed key order, so we represent it as an association
list; two label sets are equal iff they list the same pairs in the same
order, which coincides with map equality for the label sets the collectors
build. -/
abbrev Labels := List (String × String)

/-- Sample kinds from the spec data model: gauge-info (value fixed at 1),
gauge-value, gauge-timestamp. -/
inductive SampleKind
  | info
  | value
  | time
deriving DecidableEq

/-- One labelled numeric observation. -/
structure Sample where
  labels : Labels
  value : Rat
  kind : SampleKind
deriving DecidableEq

/-- Modelled from the spec: the MetricsList staging buffer of the external
prometheus-common helper library (not under src/): a write-once ordered
accumulation of Samples. -/
structure MetricsList where
  rows : List Sample
deriving DecidableEq

/-- Modelled from the spec: prometheusCommon.NewMetricsList(). -/
def NewMetricsList : MetricsList := ⟨[]⟩

/-- Modelled from the spec: MetricsList.Add appends a gauge-value Sample. -/
def MetricsList.Add (m : MetricsList) (l : Labels) (v : Rat) : MetricsList :=
  ⟨m.rows ++ [⟨l, v, SampleKind.value⟩]⟩

/-- Modelled from the spec: MetricsList.AddInfo appends a gauge-info Sample
with value 1. -/
def MetricsList.AddInfo (m : MetricsList) (l : Labels) : MetricsList :=
  ⟨m.rows ++ [⟨l, 1, SampleKind.info⟩]⟩

/-- Modelled from the spec: MetricsList.AddTime appends a gauge-timestamp
Sample whose value is the timestamp as (fractional) epoch seconds. -/
def MetricsList.AddTime (m : MetricsList) (l : Labels) (t : Rat) : MetricsList :=
  ⟨m.rows ++ [⟨l, t, SampleKind.time⟩]⟩

/-- The current series table of one MetricPublisher: at most one row per
label set. -/
abbrev PublisherState := List Sample

/-- Insert one sample into a series table, overwriting the row with the
same label set if present. -/
def setRow : PublisherState → Sample → PublisherState
  | [], s => [s]
  | r :: rs, s => if r.labels = s.labels then s :: rs else r :: setRow rs s

/-- Modelled from the spec: MetricsList.GaugeSet / MetricPublisher.apply
(§4.2, external library, not under src/): replace all currently published
series with exactly the series of the set, last-writer-wins per unique
label set. -/
def MetricsList.GaugeSet (m : MetricsList) : PublisherState :=
  m.rows.foldl setRow []

/-- Modelled from the spec: GaugeVec.Reset (§4.2 reset, external library,
not under src/): drop every series of the publisher. -/
def resetPublisher (_st : PublisherState) : PublisherState := []

/-- The last sample of the list carrying the given label set, if any. -/
def lastWith : List Sample → Labels → Option Sample
  | [], _ => none
  | s :: rest, l =>
    match lastWith rest l with
    | some t => some t
    | none => if s.labels = l then some s else none

/-- Rows of a series table carrying the given label set. -/
def rowsWith (st : PublisherState) (l : Labels) : List Sample :=
  st.filter (fun s => decide (s.labels = l))

/-- A series table is well formed when no two rows share a label set. -/
def labelsNodup (st : PublisherState) : Prop :=
  (st.map Sample.labels).Nodup

/-! ## Errors, pagination and external helpers -/

/-- A provider API failure (page fetch, list call, batch lookup).  The
source never inspects the error value, it only panics on it, so one
constructor suffices. -/
inductive ApiErr
  | apiFailure
deriving DecidableEq

/-- Failures aborting a database collector invocation: a provider API
error handed to logger.Panic, or a nil-pointer dereference panic. -/
inductive CollectErr
  | api (e : ApiErr)
  | nilDeref
deriving DecidableEq

/-- Result of one pager.NextPage call in the armresources collectors:
either an error or a page whose Value may be nil (skipped by
`if result.Value == nil { continue }`). -/
abbrev PageResult (ρ : Type) := Except ApiErr (Option (List ρ))

/-- The pager loop of collectAzureResourceGroup / collectAzureResources:
drain all pages, concatenating rows; any NextPage error escalates
(logger.Panic) and nothing is kept. -/
def drainPager {ρ : Type} : List (PageResult ρ) → Except ApiErr (List ρ)
  | [] => Except.ok []
  | Except.error e :: _ => Except.error e
  | Except.ok none :: rest => drainPager rest
  | Except.ok (some rs) :: rest =>
    match drainPager rest with
    | Except.error e => Except.error e
    | Except.ok more => Except.ok (rs ++ more)

/-- The iterator loop of the IAM collectors (ListComplete / NotDone /
Value / NextWithContext): rows of successive pages are accumulated, and
a NextWithContext failure silently breaks the loop, keeping the rows
already gathered (`if list.NextWithContext(ctx) != nil { break }`). -/
def iterRows {ρ : Type} : List (Except ApiErr (List ρ)) → List ρ
  | [] => []
  | Except.error _ :: _ => []
  | Except.ok p :: rest => p ++ iterRows rest

/-- Models to.String of the external to utils: a nil string pointer
becomes "". -/
def toStr (o : Option String) : String := o.getD ""

/-- Models to.StringLower of the external to utils. -/
def toStrLower (o : Option String) : String := (toStr o).toLower

/-- Modelled from the spec: the repository helper stringPtrToString is not
under src/; it is the nil-safe pointer-to-string conversion used by the
GraphApps, IAM and mysql collectors. -/
def stringPtrToString (o : Option String) : String := o.getD ""

/-- Modelled from the spec: the repository helper stringToStringLower is
not under src/; lowercases a string. -/
def stringToStringLower (s : String) : String := s.toLower

/-- First segment following the given (lowercased) key in a
slash-separated Azure resource ID. -/
def segmentAfter : List String → String → String
  | [], _ => ""
  | [_], _ => ""
  | a :: b :: rest, key =>
    if a.toLower = key then b else segmentAfter (b :: rest) key

/-- Resource ID fields used by the collectors. -/
structure AzureResourceDetails where
  subscription : String
  resourceGroup : String
  resourceProviderName : String
  resourceType : String
  resourceName : String
deriving DecidableEq

/-- Models armclient.ParseResourceId of the external armclient library:
extracts the segments of an ID of the shape
/subscriptions/S/resourceGroups/G/providers/P/T/N. -/
def parseResourceId (s : String) : AzureResourceDetails :=
  let segs := s.splitOn "/"
  { subscription := segmentAfter segs "subscriptions"
    resourceGroup := (segmentAfter segs "resourcegroups").toLower
    resourceProviderName := segmentAfter segs "providers"
    resourceType := segmentAfter (segs.drop 1) "providers"
    resourceName := match segs.getLast? with
      | some n => n
      | none => "" }

/-- Modelled from the spec: the repository helper
extractResourceGroupFromAzureId is not under src/; it extracts the
resource group segment of an Azure ID. -/
def extractResourceGroupFromAzureId (s : String) : String :=
  segmentAfter (s.splitOn "/") "resourcegroups"

/-- Modelled from the spec: the repository helper
extractRoleDefinitionIdFromAzureId is not under src/; it extracts the
role definition ID segment of an Azure ID. -/
def extractRoleDefinitionIdFromAzureId (s : String) : String :=
  segmentAfter (s.splitOn "/") "roledefinitions"

/-- Models armclient.AddResourceTagsToPrometheusLabels /
azureResourceTags.appendPrometheusLabel of the external libraries: for
each configured tag name, add a label tag_NAME holding the resource's
value for that tag (or "" when the resource does not carry it). -/
def addTagLabels (labels : Labels) (tags : List (String × String))
    (cfg : List String) : Labels :=
  labels ++ cfg.map (fun t =>
    ("tag_" ++ t, match tags.find? (fun p => p.1 == t) with
      | some p => p.2
      | none => ""))

/-! ## Publishers and emissions -/

/-- The GaugeVec publishers registered by the channel-based collectors. -/
inductive PublisherId
  | resource
  | resourceGroup
  | database
  | databaseStatus
  | roleAssignment
  | roleDefinition
  | principal
deriving DecidableEq

/-- One closure sent on the completion channel: the ordered GaugeSet
calls its body performs, each pairing a MetricsList with its target
publisher. -/
abbrev Emission := List (PublisherId × MetricsList)

/-- All publisher targets of an invocation's emissions, in emission
order. -/
def emissionTargets (ems : List Emission) : List PublisherId :=
  ems.flatten.map Prod.fst

/-- The publisher tables of the whole process, one series table per
registered GaugeVec. -/
abbrev PubStates := PublisherId → PublisherState

/-- Executing one drained closure: each GaugeSet call replaces the
target publisher's table with the one built from its MetricsList. -/
def applyEmission (st : PubStates) (e : Emission) : PubStates :=
  e.foldl (fun acc pm => fun q => if q = pm.1 then pm.2.GaugeSet else acc q) st

/-- The single drain consumer: execute the closures synchronously, in
channel order. -/
def runDrain (st : PubStates) (ems : List Emission) : PubStates :=
  ems.foldl applyEmission st

/-! ## MetricsCollectorAzureRmResources (src/metrics_azurerm_resources.go) -/

/-- Fields of one resource group row used by collectAzureResourceGroup
(armresources.ResourceGroup; Properties.ProvisioningState flattened). -/
structure ResourceGroup where
  id : Option String
  location : Option String
  provisioningState : Option String
  tags : List (String × String)
deriving DecidableEq

/-- The infoLabels literal of collectAzureResourceGroup. -/
def resourceGroupInfoLabels (rgTags : List String) (resourceGroup : ResourceGroup) :
    Labels :=
  let resourceId := toStr resourceGroup.id
  let azureResource := parseResourceId resourceId
  addTagLabels
    [("resourceID", toStrLower resourceGroup.id),
     ("subscriptionID", azureResource.subscription),
     ("resourceGroup", azureResource.resourceGroup),
     ("location", toStrLower resourceGroup.location),
     ("provisioningState", toStrLower resourceGroup.provisioningState)]
    resourceGroup.tags rgTags

/-- collectAzureResourceGroup: drain the pager (any NextPage error is
handed to logger.Panic, aborting the invocation with nothing emitted),
AddInfo one row per resource group, then send one callback closure
applying the MetricSet to the resourceGroup publisher. -/
def collectAzureResourceGroup (rgTags : List String)
    (pages : List (PageResult ResourceGroup)) : Except ApiErr (List Emission) :=
  match drainPager pages with
  | Except.error e => Except.error e
  | Except.ok rows =>
    let infoMetric := rows.foldl
      (fun m rg => m.AddInfo (resourceGroupInfoLabels rgTags rg)) NewMetricsList
    Except.ok [[(PublisherId.resourceGroup, infoMetric)]]

/-- Fields of one resource row used by collectAzureResources. -/
structure Resource where
  id : Option String
  location : Option String
  provisioningState : Option String
  tags : List (String × String)
deriving DecidableEq

/-- The infoLabels literal of collectAzureResources. -/
def resourceInfoLabels (resTags : List String) (resource : Resource) : Labels :=
  let resourceId := toStr resource.id
  let azureResource := parseResourceId resourceId
  addTagLabels
    [("subscriptionID", azureResource.subscription),
     ("resourceID", stringToStringLower resourceId),
     ("resourceName", azureResource.resourceName),
     ("resourceGroup", azureResource.resourceGroup),
     ("provider", azureResource.resourceProviderName),
     ("resourceType", azureResource.resourceType),
     ("location", toStrLower resource.location),
     ("provisioningState", toStrLower resource.provisioningState)]
    resource.tags resTags

/-- collectAzureResources: same pager policy as
collectAzureResourceGroup, targeting the resource publisher. -/
def collectAzureResources (resTags : List String)
    (pages : List (PageResult Resource)) : Except ApiErr (List Emission) :=
  match drainPager pages with
  | Except.error e => Except.error e
  | Except.ok rows =>
    let resourceMetric := rows.foldl
      (fun m r => m.AddInfo (resourceInfoLabels resTags r)) NewMetricsList
    Except.ok [[(PublisherId.resource, resourceMetric)]]

/-- MetricsCollectorAzureRmResources.Reset: reset both owned GaugeVecs. -/
structure AzureRmResourcesState where
  resource : PublisherState
  resourceGroup : PublisherState
deriving DecidableEq

def MetricsCollectorAzureRmResources.Reset (st : AzureRmResourcesState) :
    AzureRmResourcesState :=
  { resource := resetPublisher st.resource
    resourceGroup := resetPublisher st.resourceGroup }

/-! ## MetricsCollectorAzureRmIam (unnamed source part) -/

/-- Fields of one role definition row used by collectRoleDefinitions.
The source dereferences every pointer field unconditionally, so they are
embedded as plain strings. -/
structure RoleDefinition where
  id : String
  name : String
  roleName : String
  roleType : String
deriving DecidableEq

/-- The infoLabels literal of collectRoleDefinitions. -/
def roleDefinitionInfoLabels (subscriptionID : String) (val : RoleDefinition) :
    Labels :=
  [("subscriptionID", subscriptionID),
   ("roleDefinitionID", extractRoleDefinitionIdFromAzureId val.id),
   ("name", val.name),
   ("roleName", val.roleName),
   ("roleType", val.roleType)]

/-- collectRoleDefinitions: a ListComplete failure is handed to
logger.Panic (abort, nothing emitted); the NotDone loop AddInfos each
row and a NextWithContext failure merely breaks the loop, after which
the callback closure is still sent with the rows gathered so far. -/
def collectRoleDefinitions (subscriptionID : String)
    (pages : List (Except ApiErr (List RoleDefinition))) :
    Except ApiErr (List Emission) :=
  match pages with
  | Except.error e :: _ => Except.error e
  | _ =>
    let infoMetric := (iterRows pages).foldl
      (fun m v => m.AddInfo (roleDefinitionInfoLabels subscriptionID v))
      NewMetricsList
    Except.ok [[(PublisherId.roleDefinition, infoMetric)]]

/-- Fields of one role assignment row used by collectRoleAssignments
(Properties flattened; all pointer fields dereferenced unconditionally
by the source). -/
structure RoleAssignment where
  id : String
  principalID : String
  roleDefinitionID : String
  scope : String
deriving DecidableEq

/-- The infoLabels literal of collectRoleAssignments. -/
def roleAssignmentInfoLabels (subscriptionID : String) (val : RoleAssignment) :
    Labels :=
  [("subscriptionID", subscriptionID),
   ("roleAssignmentID", val.id),
   ("roleDefinitionID", extractRoleDefinitionIdFromAzureId val.roleDefinitionID),
   ("resourceID", val.scope),
   ("resourceGroup", extractResourceGroupFromAzureId val.scope),
   ("principalID", val.principalID)]

/-- The principalIdMap / principalIdList construction of
collectRoleAssignments: insert every principal ID into a map keyed by
itself, then list the map's values.  Go map iteration order is
unspecified; the model fixes first-insertion order, which the claims
(each distinct ID exactly once) do not depend on. -/
def principalIdListOf (ids : List String) : List String :=
  ids.foldl (fun acc id => if id ∈ acc then acc else acc ++ [id]) []

/-- The identifier list handed to the principal batch lookup by
collectRoleAssignments. -/
def principalIdListForAssignments (assignments : List RoleAssignment) :
    List String :=
  principalIdListOf (assignments.map RoleAssignment.principalID)

/-- One directory object returned by the batch principal lookup; the
source type-switches over AsADGroup / AsApplication / AsServicePrincipal
/ AsUser and drops every other kind. -/
inductive DirectoryObject
  | adGroup (objectID : Option String) (displayName : Option String)
      (objectType : String)
  | application (objectID : Option String) (displayName : Option String)
      (objectType : String)
  | servicePrincipal (objectID : Option String) (displayName : Option String)
      (objectType : String)
  | user (objectID : Option String) (displayName : Option String)
      (objectType : String)
  | unknown
deriving DecidableEq

/-- The if/else chain of collectPrincipals building infoLabels, nil for
an unrecognised kind (such a row is skipped). -/
def principalInfoLabels (subscriptionID : String) :
    DirectoryObject → Option Labels
  | DirectoryObject.adGroup oid dn ot =>
    some [("subscriptionID", subscriptionID),
          ("principalID", stringPtrToString oid),
          ("principalName", stringPtrToString dn),
          ("principalType", ot)]
  | DirectoryObject.application oid dn ot =>
    some [("subscriptionID", subscriptionID),
          ("principalID", stringPtrToString oid),
          ("principalName", stringPtrToString dn),
          ("principalType", ot)]
  | DirectoryObject.servicePrincipal oid dn ot =>
    some [("subscriptionID", subscriptionID),
          ("principalID", stringPtrToString oid),
          ("principalName", stringPtrToString dn),
          ("principalType", ot)]
  | DirectoryObject.user oid dn ot =>
    some [("subscriptionID", subscriptionID),
          ("principalID", stringPtrToString oid),
          ("principalName", stringPtrToString dn),
          ("principalType", ot)]
  | DirectoryObject.unknown => none

/-- The azure batch-size limit of collectPrincipals (chunkSize := 999). -/
def chunkSize : Nat := 999

/-- The chunking loop of collectPrincipals
(for i := 0; i < len; i += chunkSize, slicing [i : min (i+chunkSize) len]). -/
def chunkPrincipalIdList (l : List String) : List (List String) :=
  if l.isEmpty then []
  else l.take chunkSize :: chunkPrincipalIdList (l.drop chunkSize)
termination_by l.length
decreasing_by
  rename_i h
  have hne : l ≠ [] := by
    intro he
    subst he
    simp at h
  rw [List.length_drop]
  exact Nat.sub_lt (List.length_pos.mpr hne) (by norm_num [chunkSize])

/-- The per-chunk loop body of collectPrincipals: one
GetObjectsByObjectIdsComplete call per chunk (initial failure handed to
logger.Panic, aborting; a NextWithContext failure breaks that chunk's
inner loop keeping its rows), AddInfo per recognised object, folded into
the single infoMetric. -/
def collectPrincipalsFold (subscriptionID : String)
    (getObjects : List String → List (Except ApiErr (List DirectoryObject))) :
    List (List String) → MetricsList → Except ApiErr MetricsList
  | [], m => Except.ok m
  | c :: cs, m =>
    match getObjects c with
    | Except.error e :: _ => Except.error e
    | pgs =>
      let m := (iterRows pgs).foldl
        (fun acc o =>
          match principalInfoLabels subscriptionID o with
          | some l => acc.AddInfo l
          | none => acc) m
      collectPrincipalsFold subscriptionID getObjects cs m

/-- collectPrincipals: chunk the identifier list, perform the batch
lookups sequentially folding all results into one MetricSet, then send
one callback closure applying it to the principal publisher. -/
def collectPrincipals (subscriptionID : String)
    (getObjects : List String → List (Except ApiErr (List DirectoryObject)))
    (principalIdList : List String) : Except ApiErr (List Emission) :=
  match collectPrincipalsFold subscriptionID getObjects
      (chunkPrincipalIdList principalIdList) NewMetricsList with
  | Except.error e => Except.error e
  | Except.ok infoMetric =>
    Except.ok [[(PublisherId.principal, infoMetric)]]

/-- collectRoleAssignments: iterate the assignment list (initial
ListComplete failure panics; a NextWithContext failure breaks keeping
the rows so far), AddInfo one row per assignment, dedup the principal
IDs, run collectPrincipals (whose callback is sent first), then send the
roleAssignment callback. -/
def collectRoleAssignments (subscriptionID : String)
    (pages : List (Except ApiErr (List RoleAssignment)))
    (getObjects : List String → List (Except ApiErr (List DirectoryObject))) :
    Except ApiErr (List Emission) :=
  match pages with
  | Except.error e :: _ => Except.error e
  | _ =>
    let assignments := iterRows pages
    let infoMetric := assignments.foldl
      (fun m v => m.AddInfo (roleAssignmentInfoLabels subscriptionID v))
      NewMetricsList
    match collectPrincipals subscriptionID getObjects
        (principalIdListForAssignments assignments) with
    | Except.error e => Except.error e
    | Except.ok principalEmissions =>
      Except.ok (principalEmissions ++ [[(PublisherId.roleAssignment, infoMetric)]])

/-- MetricsCollectorAzureRmIam.Reset: reset the three owned GaugeVecs. -/
structure AzureRmIamState where
  roleDefinition : PublisherState
  roleAssignment : PublisherState
  principal : PublisherState
deriving DecidableEq

def MetricsCollectorAzureRmIam.Reset (st : AzureRmIamState) : AzureRmIamState :=
  { roleDefinition := resetPublisher st.roleDefinition
    roleAssignment := resetPublisher st.roleAssignment
    principal := resetPublisher st.principal }

/-! ## MetricsCollectorGraphApps (unnamed source part) -/

/-- One password credential row (dates as epoch seconds). -/
structure PasswordCredential where
  keyID : Option String
  startDate : Option Rat
  endDate : Option Rat
deriving DecidableEq

/-- One key credential row. -/
structure KeyCredential where
  keyID : Option String
  startDate : Option Rat
  endDate : Option Rat
deriving DecidableEq

/-- One graphrbac application row. -/
structure Application where
  appID : Option String
  objectID : Option String
  displayName : Option String
  objectType : String
  passwordCredentials : Option (List PasswordCredential)
  keyCredentials : Option (List KeyCredential)
deriving DecidableEq

/-- The password-credential inner loop of MetricsCollectorGraphApps.Collect:
AddTime for startDate and endDate when present. -/
def addPasswordCredentialMetrics (appID : String) (m : MetricsList)
    (credential : PasswordCredential) : MetricsList :=
  let m := match credential.startDate with
    | some t => m.AddTime
        [("appAppID", appID),
         ("credentialID", stringPtrToString credential.keyID),
         ("credentialType", "password"),
         ("type", "startDate")] t
    | none => m
  match credential.endDate with
  | some t => m.AddTime
      [("appAppID", appID),
       ("credentialID", stringPtrToString credential.keyID),
       ("credentialType", "password"),
       ("type", "endDate")] t
  | none => m

/-- The key-credential inner loop of MetricsCollectorGraphApps.Collect. -/
def addKeyCredentialMetrics (appID : String) (m : MetricsList)
    (credential : KeyCredential) : MetricsList :=
  let m := match credential.startDate with
    | some t => m.AddTime
        [("appAppID", appID),
         ("credentialID", stringPtrToString credential.keyID),
         ("credentialType", "key"),
         ("type", "startDate")] t
    | none => m
  match credential.endDate with
  | some t => m.AddTime
      [("appAppID", appID),
       ("credentialID", stringPtrToString credential.keyID),
       ("credentialType", "key"),
       ("type", "endDate")] t
  | none => m

/-- The row loop of MetricsCollectorGraphApps.Collect, building the
appsMetrics and appsCredentialMetrics MetricSets. -/
def graphAppsMetrics (rows : List Application) : MetricsList × MetricsList :=
  rows.foldl
    (fun p row =>
      let appsM := p.1.AddInfo
        [("appAppID", stringPtrToString row.appID),
         ("appObjectID", stringPtrToString row.objectID),
         ("appDisplayName", stringPtrToString row.displayName),
         ("appObjectType", row.objectType)]
      let credsM := match row.passwordCredentials with
        | some cs =>
          cs.foldl (addPasswordCredentialMetrics (stringPtrToString row.appID)) p.2
        | none => p.2
      let credsM := match row.keyCredentials with
        | some cs =>
          cs.foldl (addKeyCredentialMetrics (stringPtrToString row.appID)) credsM
        | none => credsM
      (appsM, credsM))
    (NewMetricsList, NewMetricsList)

/-- The two GaugeVecs owned by MetricsCollectorGraphApps. -/
structure GraphAppsState where
  apps : PublisherState
  appsCredentials : PublisherState
deriving DecidableEq

/-- The four publisher operations MetricsCollectorGraphApps.Collect
performs directly (not via the completion channel), in source order:
apps.Reset(); appsCredentials.Reset(); appsMetrics.GaugeSet(apps);
appsCredentialMetrics.GaugeSet(appsCredentials). -/
inductive GraphApplyStep
  | resetApps
  | resetCreds
  | setApps
  | setCreds
deriving DecidableEq

def runGraphStep (appsM credsM : MetricsList) (st : GraphAppsState) :
    GraphApplyStep → GraphAppsState
  | GraphApplyStep.resetApps => { st with apps := resetPublisher st.apps }
  | GraphApplyStep.resetCreds =>
    { st with appsCredentials := resetPublisher st.appsCredentials }
  | GraphApplyStep.setApps => { st with apps := appsM.GaugeSet }
  | GraphApplyStep.setCreds => { st with appsCredentials := credsM.GaugeSet }

def graphApplySteps : List GraphApplyStep :=
  [GraphApplyStep.resetApps, GraphApplyStep.resetCreds,
   GraphApplyStep.setApps, GraphApplyStep.setCreds]

/-- Every publisher state observable by a concurrent reader while
MetricsCollectorGraphApps.Collect runs its apply phase: the state before
the phase and the state after each of the four operations. -/
def graphAppsApplyStates (appsM credsM : MetricsList) (st : GraphAppsState) :
    List GraphAppsState :=
  graphApplySteps.scanl (runGraphStep appsM credsM) st

/-- MetricsCollectorGraphApps.Collect: one client.List call (failure is
handed to logger.Panic), build both MetricSets, then Reset and GaugeSet
both publishers directly inside Collect. -/
def graphAppsCollect (res : Except ApiErr (List Application))
    (st : GraphAppsState) : Except ApiErr GraphAppsState :=
  match res with
  | Except.error e => Except.error e
  | Except.ok rows =>
    let ms := graphAppsMetrics rows
    Except.ok (graphApplySteps.foldl (runGraphStep ms.1 ms.2) st)

/-! ## MetricsCollectorAzureRmDatabase (src/metrics_azurerm_resources.go,
second source file) -/

/-- The Sku pointer of a database server row. -/
structure DatabaseSku where
  name : Option String
  tier : String
deriving DecidableEq

/-- The StorageProfile pointer of a database server row. -/
structure DatabaseStorageProfile where
  backupRetentionDays : Option Int
  geoRedundantBackup : String
  storageMB : Option Int
deriving DecidableEq

/-- One postgresql/mysql server row; pointer fields are Options,
matching the SDK types the source dereferences. -/
structure DatabaseServer where
  id : Option String
  name : Option String
  location : Option String
  version : String
  sku : Option DatabaseSku
  fullyQualifiedDomainName : Option String
  sslEnforcement : String
  earliestRestoreDate : Option Rat
  replicaCapacity : Option Int
  storageProfile : Option DatabaseStorageProfile
  tags : List (String × String)
deriving DecidableEq

/-- A Go nil-pointer dereference: panics (aborts the invocation) when
the pointer is nil. -/
def deref {α : Type} : Option α → Except CollectErr α
  | some a => Except.ok a
  | none => Except.error CollectErr.nilDeref

/-- The postgresql row body of collectAzureDatabasePostgresql: guards
Sku, EarliestRestoreDate and ReplicaCapacity behind nil checks, but
dereferences ID, Location, Name, FullyQualifiedDomainName and the
StorageProfile fields unconditionally. -/
def postgresqlServerMetrics (subscriptionID : String) (cfgTags : List String)
    (val : DatabaseServer) (infoMetric statusMetric : MetricsList) :
    Except CollectErr (MetricsList × MetricsList) := do
  let skuName ← match val.sku with
    | some sku => deref sku.name
    | none => pure ""
  let skuTier := match val.sku with
    | some sku => sku.tier
    | none => ""
  let id ← deref val.id
  let location ← deref val.location
  let serverName ← deref val.name
  let fqdn ← deref val.fullyQualifiedDomainName
  let storageProfile ← deref val.storageProfile
  let infoLabels := addTagLabels
    [("resourceID", id),
     ("subscriptionID", subscriptionID),
     ("location", location),
     ("type", "postgresql"),
     ("serverName", serverName),
     ("resourceGroup", extractResourceGroupFromAzureId id),
     ("skuName", skuName),
     ("skuTier", skuTier),
     ("version", val.version),
     ("fqdn", fqdn),
     ("sslEnforcement", val.sslEnforcement),
     ("geoRedundantBackup", storageProfile.geoRedundantBackup)]
    val.tags cfgTags
  let infoMetric := infoMetric.Add infoLabels 1
  let backupRetentionDays ← deref storageProfile.backupRetentionDays
  let statusMetric := statusMetric.Add
    [("resourceID", id), ("type", "backupRetentionDays")]
    (backupRetentionDays : Rat)
  let statusMetric := match val.earliestRestoreDate with
    | some t => statusMetric.AddTime
        [("resourceID", id), ("type", "earliestRestoreDate")] t
    | none => statusMetric
  let statusMetric := match val.replicaCapacity with
    | some c => statusMetric.Add
        [("resourceID", id), ("type", "replicaCapacity")] (c : Rat)
    | none => statusMetric
  let storageMB ← deref storageProfile.storageMB
  let statusMetric := statusMetric.Add
    [("resourceID", id), ("type", "storage")] ((storageMB : Rat) * 1048576)
  pure (infoMetric, statusMetric)

/-- collectAzureDatabasePostgresql: one client.List call (failure handed
to logger.Panic), the row loop above, then one callback closure applying
both MetricSets. -/
def collectAzureDatabasePostgresql (subscriptionID : String)
    (cfgTags : List String) (res : Except ApiErr (List DatabaseServer)) :
    Except CollectErr (List Emission) := do
  match res with
  | Except.error e => Except.error (CollectErr.api e)
  | Except.ok servers =>
    let pair ← servers.foldlM
      (fun (p : MetricsList × MetricsList) val =>
        postgresqlServerMetrics subscriptionID cfgTags val p.1 p.2)
      (NewMetricsList, NewMetricsList)
    pure [[(PublisherId.database, pair.1), (PublisherId.databaseStatus, pair.2)]]

/-- The mysql row body of collectAzureDatabaseMysql: Location, Name and
Sku.Name go through the nil-safe stringPtrToString, AddInfo instead of
Add 1; ID, FullyQualifiedDomainName and the StorageProfile fields are
still dereferenced unconditionally. -/
def mysqlServerMetrics (subscriptionID : String) (cfgTags : List String)
    (val : DatabaseServer) (infoMetric statusMetric : MetricsList) :
    Except CollectErr (MetricsList × MetricsList) := do
  let skuName := match val.sku with
    | some sku => stringPtrToString sku.name
    | none => ""
  let skuTier := match val.sku with
    | some sku => sku.tier
    | none => ""
  let id ← deref val.id
  let fqdn ← deref val.fullyQualifiedDomainName
  let storageProfile ← deref val.storageProfile
  let infoLabels := addTagLabels
    [("resourceID", id),
     ("subscriptionID", subscriptionID),
     ("location", stringPtrToString val.location),
     ("serverName", stringPtrToString val.name),
     ("type", "mysql"),
     ("resourceGroup", extractResourceGroupFromAzureId id),
     ("skuName", skuName),
     ("skuTier", skuTier),
     ("version", val.version),
     ("fqdn", fqdn),
     ("sslEnforcement", val.sslEnforcement),
     ("geoRedundantBackup", storageProfile.geoRedundantBackup)]
    val.tags cfgTags
  let infoMetric := infoMetric.AddInfo infoLabels
  let backupRetentionDays ← deref storageProfile.backupRetentionDays
  let statusMetric := statusMetric.Add
    [("resourceID", id), ("type", "backupRetentionDays")]
    (backupRetentionDays : Rat)
  let statusMetric := match val.earliestRestoreDate with
    | some t => statusMetric.AddTime
        [("resourceID", id), ("type", "earliestRestoreDate")] t
    | none => statusMetric
  let statusMetric := match val.replicaCapacity with
    | some c => statusMetric.Add
        [("resourceID", id), ("type", "replicaCapacity")] (c : Rat)
    | none => statusMetric
  let storageMB ← deref storageProfile.storageMB
  let statusMetric := statusMetric.Add
    [("resourceID", id), ("type", "storage")] ((storageMB : Rat) * 1048576)
  pure (infoMetric, statusMetric)

/-- collectAzureDatabaseMysql: same structure as the postgresql
collector. -/
def collectAzureDatabaseMysql (subscriptionID : String)
    (cfgTags : List String) (res : Except ApiErr (List DatabaseServer)) :
    Except CollectErr (List Emission) := do
  match res with
  | Except.error e => Except.error (CollectErr.api e)
  | Except.ok servers =>
    let pair ← servers.foldlM
      (fun (p : MetricsList × MetricsList) val =>
        mysqlServerMetrics subscriptionID cfgTags val p.1 p.2)
      (NewMetricsList, NewMetricsList)
    pure [[(PublisherId.database, pair.1), (PublisherId.databaseStatus, pair.2)]]

/-- MetricsCollectorAzureRmDatabase.Reset: reset both owned GaugeVecs. -/
structure AzureRmDatabaseState where
  database : PublisherState
  databaseStatus : PublisherState
deriving DecidableEq

def MetricsCollectorAzureRmDatabase.Reset (st : AzureRmDatabaseState) :
    AzureRmDatabaseState :=
  { database := resetPublisher st.database
    databaseStatus := resetPublisher st.databaseStatus }

/-- MetricsCollectorAzureRmDatabase.Collect: one scope invocation runs
collectAzureDatabasePostgresql then collectAzureDatabaseMysql, each of
which sends its own callback closure applying a MetricSet to both the
database and databaseStatus publishers; a postgresql panic aborts
before the mysql helper runs. -/
def MetricsCollectorAzureRmDatabase.Collect (subscriptionID : String)
    (cfgTags : List String)
    (pgRes mysqlRes : Except ApiErr (List DatabaseServer)) :
    Except CollectErr (List Emission) := do
  let pgEmissions ← collectAzureDatabasePostgresql subscriptionID cfgTags pgRes
  let mysqlEmissions ← collectAzureDatabaseMysql subscriptionID cfgTags mysqlRes
  pure (pgEmissions ++ mysqlEmissions)

/-! ## MetricSet builder operations (for claims quantifying over sets
built via addInfo / add / addTime) -/

/-- One builder call on a MetricsList. -/
inductive MetricOp
  | add (l : Labels) (v : Rat)
  | addInfo (l : Labels)
  | addTime (l : Labels) (t : Rat)

/-- Run one builder call. -/
def applyMetricOp (m : MetricsList) : MetricOp → MetricsList
  | MetricOp.add l v => m.Add l v
  | MetricOp.addInfo l => m.AddInfo l
  | MetricOp.addTime l t => m.AddTime l t

/-- A MetricSet built by a sequence of builder calls starting from
NewMetricsList. -/
def buildMetricsList (ops : List MetricOp) : MetricsList :=
  ops.foldl applyMetricOp NewMetricsList


/-! ## Concrete scenario inputs -/

/-- A role definition row for concrete scenarios. -/
def roleDefCE : RoleDefinition :=
  { id := "/subscriptions/s1/providers/Microsoft.Authorization/roleDefinitions/rd1"
    name := "rd1"
    roleName := "Reader"
    roleType := "BuiltInRole" }

/-- An application row for concrete scenarios. -/
def graphAppCE : Application :=
  { appID := some "app-b"
    objectID := some "ob"
    displayName := some "B"
    objectType := "Application"
    passwordCredentials := none
    keyCredentials := none }

/-- A pre-tick GraphApps publisher state holding one app row from the
previous pass. -/
def graphPreCE : GraphAppsState :=
  { apps := [⟨[("appAppID", "app-a"), ("appObjectID", "oa"),
               ("appDisplayName", "A"), ("appObjectType", "Application")], 1,
              SampleKind.info⟩]
    appsCredentials := [] }

/-- The publisher state observable right after the apps.Reset() step of
MetricsCollectorGraphApps.Collect, before appsMetrics.GaugeSet. -/
def graphMidCE : GraphAppsState :=
  runGraphStep (graphAppsMetrics [graphAppCE]).1 (graphAppsMetrics [graphAppCE]).2
    graphPreCE GraphApplyStep.resetApps

/-! ## Lemmas on the publisher series-table model -/

theorem rowsWith_nil (l : Labels) : rowsWith [] l = [] := rfl

theorem rowsWith_cons_pos {st : PublisherState} {r : Sample} {l : Labels}
    (h : r.labels = l) : rowsWith (r :: st) l = r :: rowsWith st l := by
  simp [rowsWith, List.filter_cons, h]

theorem rowsWith_cons_neg {st : PublisherState} {r : Sample} {l : Labels}
    (h : ¬ r.labels = l) : rowsWith (r :: st) l = rowsWith st l := by
  simp [rowsWith, List.filter_cons, h]

theorem labels_mem_setRow {st : PublisherState} {s : Sample} {x : Labels}
    (h : x ∈ (setRow st s).map Sample.labels) :
    x = s.labels ∨ x ∈ st.map Sample.labels := by
  induction st with
  | nil =>
    rw [show setRow [] s = [s] from rfl] at h
    exact Or.inl (by simpa using h)
  | cons r rs ih =>
    by_cases hr : r.labels = s.labels
    · rw [show setRow (r :: rs) s
            = if r.labels = s.labels then s :: rs else r :: setRow rs s from rfl,
          if_pos hr, List.map_cons] at h
      rcases List.mem_cons.mp h with h | h
      · exact Or.inl h
      · right; rw [List.map_cons]; exact List.mem_cons_of_mem _ h
    · rw [show setRow (r :: rs) s
            = if r.labels = s.labels then s :: rs else r :: setRow rs s from rfl,
          if_neg hr, List.map_cons] at h
      rcases List.mem_cons.mp h with h | h
      · subst h; right; rw [List.map_cons]; exact List.mem_cons_self _ _
      · rcases ih h with h2 | h2
        · exact Or.inl h2
        · right; rw [List.map_cons]; exact List.mem_cons_of_mem _ h2

theorem setRow_nodup {st : PublisherState} (h : labelsNodup st) (s : Sample) :
    labelsNodup (setRow st s) := by
  induction st with
  | nil =>
    rw [labelsNodup, show setRow [] s = [s] from rfl]
    simp
  | cons r rs ih =>
    rw [labelsNodup, List.map_cons, List.nodup_cons] at h
    by_cases hr : r.labels = s.labels
    · rw [labelsNodup, show setRow (r :: rs) s
            = if r.labels = s.labels then s :: rs else r :: setRow rs s from rfl,
          if_pos hr, List.map_cons, List.nodup_cons]
      exact ⟨hr ▸ h.1, h.2⟩
    · rw [labelsNodup, show setRow (r :: rs) s
            = if r.labels = s.labels then s :: rs else r :: setRow rs s from rfl,
          if_neg hr, List.map_cons, List.nodup_cons]
      refine ⟨fun hmem => ?_, ih h.2⟩
      rcases labels_mem_setRow hmem with h2 | h2
      · exact hr h2
      · exact h.1 h2

theorem rowsWith_setRow_self {st : PublisherState} (h : labelsNodup st) (s : Sample) :
    rowsWith (setRow st s) s.labels = [s] := by
  induction st with
  | nil =>
    rw [show setRow [] s = [s] from rfl, rowsWith_cons_pos rfl, rowsWith_nil]
  | cons r rs ih =>
    rw [labelsNodup, List.map_cons, List.nodup_cons] at h
    by_cases hr : r.labels = s.labels
    · rw [show setRow (r :: rs) s
            = if r.labels = s.labels then s :: rs else r :: setRow rs s from rfl,
          if_pos hr, rowsWith_cons_pos rfl]
      have hnil : rowsWith rs s.labels = [] := by
        rw [rowsWith, List.filter_eq_nil_iff]
        intro t ht
        simp only [decide_eq_true_eq]
        intro he
        exact h.1 (hr ▸ he ▸ List.mem_map_of_mem Sample.labels ht)
      rw [hnil]
    · rw [show setRow (r :: rs) s
            = if r.labels = s.labels then s :: rs else r :: setRow rs s from rfl,
          if_neg hr, rowsWith_cons_neg hr]
      exact ih h.2

theorem rowsWith_setRow_ne {st : PublisherState} {l : Labels} (s : Sample)
    (h : l ≠ s.labels) : rowsWith (setRow st s) l = rowsWith st l := by
  have hs : ¬ s.labels = l := fun he => h he.symm
  induction st with
  | nil =>
    rw [show setRow [] s = [s] from rfl, rowsWith_cons_neg hs]
  | cons r rs ih =>
    by_cases hr : r.labels = s.labels
    · have hrl : ¬ r.labels = l := by rw [hr]; exact hs
      rw [show setRow (r :: rs) s
            = if r.labels = s.labels then s :: rs else r :: setRow rs s from rfl,
          if_pos hr, rowsWith_cons_neg hs, rowsWith_cons_neg hrl]
    · rw [show setRow (r :: rs) s
            = if r.labels = s.labels then s :: rs else r :: setRow rs s from rfl,
          if_neg hr]
      by_cases hrl : r.labels = l
      · rw [rowsWith_cons_pos hrl, rowsWith_cons_pos hrl, ih]
      · rw [rowsWith_cons_neg hrl, rowsWith_cons_neg hrl, ih]

theorem foldl_setRow_rowsWith (rows : List Sample) :
    ∀ (st : PublisherState), labelsNodup st → ∀ (l : Labels),
      rowsWith (rows.foldl setRow st) l =
        match lastWith rows l with
        | some t => [t]
        | none => rowsWith st l := by
  induction rows with
  | nil => intro st _ l; rfl
  | cons s rest ih =>
    intro st hst l
    rw [List.foldl_cons, ih (setRow st s) (setRow_nodup hst s) l]
    cases hlast : lastWith rest l with
    | some t =>
      show [t] = match lastWith (s :: rest) l with
        | some u => [u]
        | none => rowsWith st l
      rw [show lastWith (s :: rest) l
            = match lastWith rest l with
              | some u => some u
              | none => if s.labels = l then some s else none from rfl, hlast]
    | none =>
      show rowsWith (setRow st s) l = match lastWith (s :: rest) l with
        | some u => [u]
        | none => rowsWith st l
      rw [show lastWith (s :: rest) l
            = match lastWith rest l with
              | some u => some u
              | none => if s.labels = l then some s else none from rfl, hlast]
      by_cases hsl : s.labels = l
      · rw [if_pos hsl]
        subst hsl
        exact rowsWith_setRow_self hst s
      · rw [if_neg hsl]
        exact rowsWith_setRow_ne s (fun he => hsl he.symm)

theorem mem_setRow {st : PublisherState} {s t : Sample}
    (h : t ∈ setRow st s) : t = s ∨ t ∈ st := by
  induction st with
  | nil =>
    rw [show setRow [] s = [s] from rfl] at h
    exact Or.inl (by simpa using h)
  | cons r rs ih =>
    by_cases hr : r.labels = s.labels
    · rw [show setRow (r :: rs) s
            = if r.labels = s.labels then s :: rs else r :: setRow rs s from rfl,
          if_pos hr] at h
      rcases List.mem_cons.mp h with h | h
      · exact Or.inl h
      · exact Or.inr (List.mem_cons_of_mem _ h)
    · rw [show setRow (r :: rs) s
            = if r.labels = s.labels then s :: rs else r :: setRow rs s from rfl,
          if_neg hr] at h
      rcases List.mem_cons.mp h with h | h
      · subst h; exact Or.inr (List.mem_cons_self _ _)
      · rcases ih h with h2 | h2
        · exact Or.inl h2
        · exact Or.inr (List.mem_cons_of_mem _ h2)

theorem mem_foldl_setRow {rows : List Sample} :
    ∀ {st : PublisherState} {t : Sample},
      t ∈ rows.foldl setRow st → t ∈ rows ∨ t ∈ st := by
  induction rows with
  | nil => intro st t h; exact Or.inr (by simpa using h)
  | cons s rest ih =>
    intro st t h
    rw [List.foldl_cons] at h
    rcases ih h with h2 | h2
    · exact Or.inl (by simp [h2])
    · rcases mem_setRow h2 with h3 | h3
      · exact Or.inl (by simp [h3])
      · exact Or.inr h3

theorem mem_gaugeSet {m : MetricsList} {t : Sample}
    (h : t ∈ m.GaugeSet) : t ∈ m.rows := by
  rcases mem_foldl_setRow h with h2 | h2
  · exact h2
  · simp at h2

theorem foldl_setRow_nodup (rows : List Sample) :
    ∀ (st : PublisherState), labelsNodup st → labelsNodup (rows.foldl setRow st) := by
  induction rows with
  | nil => intro st h; exact h
  | cons s rest ih =>
    intro st h
    rw [List.foldl_cons]
    exact ih _ (setRow_nodup h s)

theorem buildMetricsList_info_value (ops : List MetricOp) :
    ∀ (m : MetricsList), (∀ s ∈ m.rows, s.kind = SampleKind.info → s.value = 1) →
      ∀ s ∈ (ops.foldl applyMetricOp m).rows, s.kind = SampleKind.info → s.value = 1 := by
  induction ops with
  | nil => intro m h; exact h
  | cons op rest ih =>
    intro m h
    rw [List.foldl_cons]
    apply ih
    intro s hs hk
    cases op with
    | add l v =>
      rcases List.mem_append.mp hs with h2 | h2
      · exact h s h2 hk
      · have : s = ⟨l, v, SampleKind.value⟩ := by simpa using h2
        rw [this] at hk
        exact absurd hk (by simp)
    | addInfo l =>
      rcases List.mem_append.mp hs with h2 | h2
      · exact h s h2 hk
      · have : s = ⟨l, 1, SampleKind.info⟩ := by simpa using h2
        rw [this]
    | addTime l t =>
      rcases List.mem_append.mp hs with h2 | h2
      · exact h s h2 hk
      · have : s = ⟨l, t, SampleKind.time⟩ := by simpa using h2
        rw [this] at hk
        exact absurd hk (by simp)

theorem principalIdListOf_count_aux (ids : List String) :
    ∀ (acc : List String), acc.Nodup → ∀ id,
      (ids.foldl (fun acc id => if id ∈ acc then acc else acc ++ [id]) acc).count id
        = if id ∈ acc ∨ id ∈ ids then 1 else 0 := by
  induction ids with
  | nil =>
    intro acc hacc id
    rw [List.foldl_nil]
    by_cases h : id ∈ acc
    · rw [if_pos (Or.inl h)]
      exact List.count_eq_one_of_mem hacc h
    · rw [if_neg (by simp [h])]
      exact List.count_eq_zero_of_not_mem h
  | cons x rest ih =>
    intro acc hacc id
    rw [List.foldl_cons]
    by_cases hx : x ∈ acc
    · rw [if_pos hx, ih acc hacc id]
      refine if_congr ?_ rfl rfl
      constructor
      · rintro (h | h)
        · exact Or.inl h
        · exact Or.inr (List.mem_cons_of_mem _ h)
      · rintro (h | h)
        · exact Or.inl h
        · rcases List.mem_cons.mp h with h2 | h2
          · exact Or.inl (h2 ▸ hx)
          · exact Or.inr h2
    · rw [if_neg hx]
      have hacc2 : (acc ++ [x]).Nodup := by
        rw [List.nodup_append]
        exact ⟨hacc, List.nodup_singleton x, by simpa using hx⟩
      rw [ih (acc ++ [x]) hacc2 id]
      refine if_congr ?_ rfl rfl
      constructor
      · rintro (h | h)
        · rcases List.mem_append.mp h with h2 | h2
          · exact Or.inl h2
          · exact Or.inr (by simpa using Or.inl (by simpa using h2))
        · exact Or.inr (List.mem_cons_of_mem _ h)
      · rintro (h | h)
        · exact Or.inl (List.mem_append.mpr (Or.inl h))
        · rcases List.mem_cons.mp h with h2 | h2
          · exact Or.inl (List.mem_append.mpr (Or.inr (by simp [h2])))
          · exact Or.inr h2

theorem chunk_flatten (l : List String) :
    (chunkPrincipalIdList l).flatten = l := by
  rw [chunkPrincipalIdList]
  by_cases h : l.isEmpty
  · rw [if_pos h]
    have hnil : l = [] := by
      cases l with
      | nil => rfl
      | cons a as => simp at h
    rw [hnil]
    rfl
  · rw [if_neg h]
    rw [List.flatten_cons, chunk_flatten (l.drop chunkSize)]
    exact List.take_append_drop chunkSize l
termination_by l.length
decreasing_by
  have hne : l ≠ [] := by
    intro he
    subst he
    simp at h
  rw [List.length_drop]
  exact Nat.sub_lt (List.length_pos.mpr hne) (by norm_num [chunkSize])

theorem chunk_length_le (l : List String) :
    ∀ c ∈ chunkPrincipalIdList l, c.length ≤ chunkSize := by
  rw [chunkPrincipalIdList]
  by_cases h : l.isEmpty
  · rw [if_pos h]
    intro c hc
    exact absurd hc (by simp)
  · rw [if_neg h]
    intro c hc
    rcases List.mem_cons.mp hc with hc | hc
    · subst hc
      rw [List.length_take]
      exact min_le_left _ _
    · exact chunk_length_le (l.drop chunkSize) c hc
termination_by l.length
decreasing_by
  have hne : l ≠ [] := by
    intro he
    subst he
    simp at h
  rw [List.length_drop]
  exact Nat.sub_lt (List.length_pos.mpr hne) (by norm_num [chunkSize])

theorem drainPager_mem_error {ρ : Type} (pages : List (PageResult ρ)) (e : ApiErr)
    (h : Except.error e ∈ pages) : ∃ e2, drainPager pages = Except.error e2 := by
  induction pages with
  | nil => simp at h
  | cons p rest ih =>
    cases p with
    | error e3 => exact ⟨e3, rfl⟩
    | ok o =>
      have hrest : Except.error e ∈ rest := by
        rcases List.mem_cons.mp h with h2 | h2
        · exact absurd h2 (by simp)
        · exact h2
      rcases ih hrest with ⟨e2, h2⟩
      cases o with
      | none => exact ⟨e2, h2⟩
      | some rs =>
        refine ⟨e2, ?_⟩
        rw [show drainPager (Except.ok (some rs) :: rest)
              = (match drainPager rest with
                 | Except.error e => Except.error e
                 | Except.ok more => Except.ok (rs ++ more)) from rfl, h2]

theorem collectPrincipals_ok_shape (subscriptionID : String)
    (getObjects : List String → List (Except ApiErr (List DirectoryObject)))
    (ids : List String) (ems : List Emission)
    (h : collectPrincipals subscriptionID getObjects ids = Except.ok ems) :
    ∃ m, ems = [[(PublisherId.principal, m)]] := by
  rw [collectPrincipals] at h
  cases hf : collectPrincipalsFold subscriptionID getObjects
      (chunkPrincipalIdList ids) NewMetricsList with
  | error e => rw [hf] at h; exact absurd h (by simp)
  | ok m =>
    rw [hf] at h
    exact ⟨m, by injection h with h2; exact h2.symm⟩

theorem collectAzureResourceGroup_ok_shape (rgTags : List String)
    (pages : List (PageResult ResourceGroup)) (ems : List Emission)
    (h : collectAzureResourceGroup rgTags pages = Except.ok ems) :
    ∃ m, ems = [[(PublisherId.resourceGroup, m)]] := by
  rw [collectAzureResourceGroup] at h
  cases hd : drainPager pages with
  | error e => rw [hd] at h; exact absurd h (by simp)
  | ok rows =>
    rw [hd] at h
    refine ⟨rows.foldl (fun m rg => m.AddInfo (resourceGroupInfoLabels rgTags rg))
        NewMetricsList, ?_⟩
    injection h with h2
    exact h2.symm

/-! ## Claim theorems -/

/-- C6: for every MetricSet S applied to a publisher, the snapshot
afterwards holds exactly one row per distinct label set occurring in S
(no duplicate label sets survive), and for a label set occurring more
than once the surviving row is the last-added one — last-writer-wins,
duplicates overwrite and never sum. -/
theorem apply_last_writer_wins (m : MetricsList) (l : Labels) :
    labelsNodup m.GaugeSet ∧
    rowsWith m.GaugeSet l =
      (match lastWith m.rows l with
       | some t => [t]
       | none => []) := by
  constructor
  · exact foldl_setRow_nodup m.rows [] (by simp [labelsNodup])
  · have h := foldl_setRow_rowsWith m.rows [] (by simp [labelsNodup]) l
    rw [MetricsList.GaugeSet, h]
    cases lastWith m.rows l with
    | some t => rfl
    | none => rfl

/-- C7: reset() is equivalent to applying the empty MetricSet: whatever
state a prior apply of a (possibly non-empty) set left, applying the
empty set yields the empty snapshot (length 0), and the collectors'
Reset methods leave each owned publisher in exactly that state —
stale series from prior ticks are dropped. -/
theorem reset_equiv_apply_empty (m : MetricsList) (stRes : AzureRmResourcesState)
    (stIam : AzureRmIamState) (stDb : AzureRmDatabaseState) :
    NewMetricsList.GaugeSet = ([] : PublisherState) ∧
    (NewMetricsList.GaugeSet : PublisherState).length = 0 ∧
    resetPublisher m.GaugeSet = NewMetricsList.GaugeSet ∧
    MetricsCollectorAzureRmResources.Reset stRes
      = { resource := NewMetricsList.GaugeSet
          resourceGroup := NewMetricsList.GaugeSet } ∧
    MetricsCollectorAzureRmIam.Reset stIam
      = { roleDefinition := NewMetricsList.GaugeSet
          roleAssignment := NewMetricsList.GaugeSet
          principal := NewMetricsList.GaugeSet } ∧
    MetricsCollectorAzureRmDatabase.Reset stDb
      = { database := NewMetricsList.GaugeSet
          databaseStatus := NewMetricsList.GaugeSet } :=
  ⟨rfl, rfl, rfl, rfl, rfl, rfl⟩

/-- C9: addInfo(l) appends a sample of kind gauge-info with numeric
value exactly 1; add(l, 1) yields the same sequence of sample values;
and in a post-apply snapshot of a MetricSet built via the builder
operations, every row of kind gauge-info has value 1. -/
theorem addInfo_value_one (m : MetricsList) (l : Labels) (ops : List MetricOp)
    (s : Sample) :
    (m.AddInfo l).rows = m.rows ++ [⟨l, 1, SampleKind.info⟩] ∧
    (m.AddInfo l).rows.map Sample.value = (m.Add l 1).rows.map Sample.value ∧
    (s ∈ (buildMetricsList ops).GaugeSet → s.kind = SampleKind.info →
       s.value = 1) := by
  refine ⟨rfl, by simp [MetricsList.AddInfo, MetricsList.Add], fun hs hk => ?_⟩
  exact buildMetricsList_info_value ops NewMetricsList
    (by simp [NewMetricsList]) s (mem_gaugeSet hs) hk

/-- C9 witness: a concrete info sample in a post-apply snapshot has
value 1. -/
theorem addInfo_value_one_witness :
    (⟨[("appAppID", "x")], 1, SampleKind.info⟩ : Sample)
        ∈ (buildMetricsList [MetricOp.addInfo [("appAppID", "x")]]).GaugeSet ∧
    (⟨[("appAppID", "x")], 1, SampleKind.info⟩ : Sample).value = 1 :=
  ⟨by decide,
   (addInfo_value_one NewMetricsList [("appAppID", "x")]
      [MetricOp.addInfo [("appAppID", "x")]]
      ⟨[("appAppID", "x")], 1, SampleKind.info⟩).2.2 (by decide) rfl⟩

/-- C5: the identifier list collectRoleAssignments hands to the
principal batch lookup contains each distinct principal ID of the
processed role assignments exactly once — duplicates among the role
assignments are deduplicated before the lookup. -/
theorem principal_id_dedup (assignments : List RoleAssignment) (id : String) :
    (principalIdListForAssignments assignments).count id =
      if id ∈ assignments.map RoleAssignment.principalID then 1 else 0 := by
  rw [principalIdListForAssignments, principalIdListOf]
  have h := principalIdListOf_count_aux
    (assignments.map RoleAssignment.principalID) [] (by simp) id
  simpa using h

/-- C4: the batch lookup partitions the identifier list into consecutive
chunks of size at most 999 (chunkSize), concatenating the chunks in
order restores the list (so every identifier lies in exactly one chunk,
and the chunks are issued sequentially in list order), and on success
all chunk results are folded into one MetricSet emitted exactly once. -/
theorem principal_batching (ids : List String) :
    (chunkPrincipalIdList ids).flatten = ids ∧
    (∀ c ∈ chunkPrincipalIdList ids, c.length ≤ chunkSize) ∧
    (∀ subscriptionID getObjects ems,
       collectPrincipals subscriptionID getObjects ids = Except.ok ems →
       ∃ m, ems = [[(PublisherId.principal, m)]]) :=
  ⟨chunk_flatten ids, chunk_length_le ids,
   fun subscriptionID getObjects ems h =>
     collectPrincipals_ok_shape subscriptionID getObjects ids ems h⟩

/-- C4 witness: a two-identifier lookup forms one chunk within the
limit, and succeeds with a single principal emission. -/
theorem principal_batching_witness :
    ["p1", "p2"] ∈ chunkPrincipalIdList ["p1", "p2"] ∧
    (["p1", "p2"] : List String).length ≤ chunkSize ∧
    collectPrincipals "s1" (fun _ => []) ["p1", "p2"]
      = Except.ok [[(PublisherId.principal, NewMetricsList)]] ∧
    (∃ m, [[(PublisherId.principal, NewMetricsList)]]
       = [[(PublisherId.principal, m)]]) := by
  have hchunk : chunkPrincipalIdList ["p1", "p2"] = [["p1", "p2"]] := by
    rw [chunkPrincipalIdList]
    norm_num
    rw [chunkPrincipalIdList]
    norm_num [chunkSize]
  have hmem : ["p1", "p2"] ∈ chunkPrincipalIdList ["p1", "p2"] := by
    rw [hchunk]
    exact List.mem_singleton.mpr rfl
  have hcoll : collectPrincipals "s1" (fun _ => []) ["p1", "p2"]
      = Except.ok [[(PublisherId.principal, NewMetricsList)]] := by
    rw [collectPrincipals, hchunk]
    rfl
  exact ⟨hmem, (principal_batching ["p1", "p2"]).2.1 _ hmem, hcoll,
    (principal_batching ["p1", "p2"]).2.2 "s1" (fun _ => []) _ hcoll⟩

theorem except_bind_ok {ε α β : Type} {x : Except ε α} {f : α → Except ε β} {b : β}
    (h : (x >>= f) = Except.ok b) : ∃ a, x = Except.ok a ∧ f a = Except.ok b := by
  cases x with
  | error e => exact absurd h (by simp [Bind.bind, Except.bind])
  | ok a => exact ⟨a, rfl, by simpa [Bind.bind, Except.bind] using h⟩

theorem collectAzureDatabasePostgresql_ok_shape (subscriptionID : String)
    (cfgTags : List String) (res : Except ApiErr (List DatabaseServer))
    (ems : List Emission)
    (h : collectAzureDatabasePostgresql subscriptionID cfgTags res
       = Except.ok ems) :
    ∃ m1 m2,
      ems = [[(PublisherId.database, m1), (PublisherId.databaseStatus, m2)]] := by
  cases res with
  | error e => exact absurd h (by simp [collectAzureDatabasePostgresql])
  | ok servers =>
    simp only [collectAzureDatabasePostgresql] at h
    rcases except_bind_ok h with ⟨pair, _, hpure⟩
    injection hpure with h2
    exact ⟨pair.1, pair.2, h2.symm⟩

theorem collectAzureDatabaseMysql_ok_shape (subscriptionID : String)
    (cfgTags : List String) (res : Except ApiErr (List DatabaseServer))
    (ems : List Emission)
    (h : collectAzureDatabaseMysql subscriptionID cfgTags res = Except.ok ems) :
    ∃ m1 m2,
      ems = [[(PublisherId.database, m1), (PublisherId.databaseStatus, m2)]] := by
  cases res with
  | error e => exact absurd h (by simp [collectAzureDatabaseMysql])
  | ok servers =>
    simp only [collectAzureDatabaseMysql] at h
    rcases except_bind_ok h with ⟨pair, _, hpure⟩
    injection hpure with h2
    exact ⟨pair.1, pair.2, h2.symm⟩

/-- C3 counterexample: one error-free scope invocation of
MetricsCollectorAzureRmDatabase.Collect sends two closures — one from
the postgresql helper, one from the mysql helper — each applying a
MetricSet to the database and databaseStatus publishers, so each owned
publisher receives two emissions in that invocation, not exactly one. -/
theorem database_collect_emits_twice_per_publisher :
    MetricsCollectorAzureRmDatabase.Collect "s1" [] (Except.ok []) (Except.ok [])
      = Except.ok
          [[(PublisherId.database, NewMetricsList),
            (PublisherId.databaseStatus, NewMetricsList)],
           [(PublisherId.database, NewMetricsList),
            (PublisherId.databaseStatus, NewMetricsList)]] ∧
    (emissionTargets
        [[(PublisherId.database, NewMetricsList),
          (PublisherId.databaseStatus, NewMetricsList)],
         [(PublisherId.database, NewMetricsList),
          (PublisherId.databaseStatus, NewMetricsList)]]).count
        PublisherId.database = 2 :=
  ⟨rfl, by decide⟩

/-- C3 amended: each collect helper calls emit exactly once per
publisher it applies to — including exactly one emission of an empty
MetricSet when zero rows were found — and the resources, IAM and
GraphApps collectors touch each owned publisher exactly once per
error-free invocation; the database collector's scope invocation,
however, runs both the postgresql and the mysql helper against the same
two publishers, so each of its owned publishers receives exactly two
emissions (postgresql first, then mysql). -/
theorem collectors_emit_once_per_publisher :
    (∀ rgTags pages ems,
       collectAzureResourceGroup rgTags pages = Except.ok ems →
       emissionTargets ems = [PublisherId.resourceGroup]) ∧
    (∀ rgTags, collectAzureResourceGroup rgTags []
       = Except.ok [[(PublisherId.resourceGroup, NewMetricsList)]]) ∧
    (∀ subscriptionID getObjects ids ems,
       collectPrincipals subscriptionID getObjects ids = Except.ok ems →
       emissionTargets ems = [PublisherId.principal]) ∧
    (∀ subscriptionID pages getObjects ems,
       collectRoleAssignments subscriptionID pages getObjects = Except.ok ems →
       emissionTargets ems = [PublisherId.principal, PublisherId.roleAssignment]) ∧
    (∀ subscriptionID cfgTags res ems,
       collectAzureDatabasePostgresql subscriptionID cfgTags res = Except.ok ems →
       emissionTargets ems
         = [PublisherId.database, PublisherId.databaseStatus]) ∧
    (∀ rows st st2,
       graphAppsCollect (Except.ok rows) st = Except.ok st2 →
       st2 = { apps := (graphAppsMetrics rows).1.GaugeSet
               appsCredentials := (graphAppsMetrics rows).2.GaugeSet }) ∧
    (∀ subscriptionID cfgTags pgRes mysqlRes ems,
       MetricsCollectorAzureRmDatabase.Collect subscriptionID cfgTags
           pgRes mysqlRes = Except.ok ems →
       emissionTargets ems
         = [PublisherId.database, PublisherId.databaseStatus,
            PublisherId.database, PublisherId.databaseStatus]) := by
  refine ⟨?_, ?_, ?_, ?_, ?_, ?_, ?_⟩
  · intro rgTags pages ems h
    rcases collectAzureResourceGroup_ok_shape rgTags pages ems h with ⟨m, rfl⟩
    rfl
  · intro rgTags
    rfl
  · intro subscriptionID getObjects ids ems h
    rcases collectPrincipals_ok_shape subscriptionID getObjects ids ems h with ⟨m, rfl⟩
    rfl
  · intro subscriptionID pages getObjects ems h
    simp only [collectRoleAssignments] at h
    split at h
    · exact absurd h (by simp)
    · split at h
      · exact absurd h (by simp)
      · rename_i principalEmissions hp
        rcases collectPrincipals_ok_shape _ _ _ _ hp with ⟨m, rfl⟩
        injection h with h2
        subst h2
        rfl
  · intro subscriptionID cfgTags res ems h
    cases res with
    | error e => exact absurd h (by simp [collectAzureDatabasePostgresql])
    | ok servers =>
      simp only [collectAzureDatabasePostgresql] at h
      rcases except_bind_ok h with ⟨pair, _, hpure⟩
      injection hpure with h2
      subst h2
      rfl
  · intro rows st st2 h
    injection h with h2
    exact h2.symm
  · intro subscriptionID cfgTags pgRes mysqlRes ems h
    simp only [MetricsCollectorAzureRmDatabase.Collect] at h
    rcases except_bind_ok h with ⟨pgEmissions, hpg, h2⟩
    rcases except_bind_ok h2 with ⟨mysqlEmissions, hmy, h3⟩
    rcases collectAzureDatabasePostgresql_ok_shape _ _ _ _ hpg with ⟨m1, m2, rfl⟩
    rcases collectAzureDatabaseMysql_ok_shape _ _ _ _ hmy with ⟨m3, m4, rfl⟩
    injection h3 with h4
    subst h4
    rfl

/-- C3 witness: concrete zero-row invocations emit exactly one (empty)
MetricSet per owned publisher per helper, and the composite database
invocation two per publisher. -/
theorem collectors_emit_once_per_publisher_witness :
    collectAzureResourceGroup [] []
      = Except.ok [[(PublisherId.resourceGroup, NewMetricsList)]] ∧
    emissionTargets [[(PublisherId.resourceGroup, NewMetricsList)]]
      = [PublisherId.resourceGroup] ∧
    collectRoleAssignments "s1" [] (fun _ => [])
      = Except.ok [[(PublisherId.principal, NewMetricsList)],
                   [(PublisherId.roleAssignment, NewMetricsList)]] ∧
    emissionTargets [[(PublisherId.principal, NewMetricsList)],
                     [(PublisherId.roleAssignment, NewMetricsList)]]
      = [PublisherId.principal, PublisherId.roleAssignment] ∧
    MetricsCollectorAzureRmDatabase.Collect "s1" [] (Except.ok []) (Except.ok [])
      = Except.ok
          [[(PublisherId.database, NewMetricsList),
            (PublisherId.databaseStatus, NewMetricsList)],
           [(PublisherId.database, NewMetricsList),
            (PublisherId.databaseStatus, NewMetricsList)]] ∧
    emissionTargets
        [[(PublisherId.database, NewMetricsList),
          (PublisherId.databaseStatus, NewMetricsList)],
         [(PublisherId.database, NewMetricsList),
          (PublisherId.databaseStatus, NewMetricsList)]]
      = [PublisherId.database, PublisherId.databaseStatus,
         PublisherId.database, PublisherId.databaseStatus] := by
  have hchunknil : chunkPrincipalIdList [] = [] := by
    rw [chunkPrincipalIdList]
    norm_num
  have h1 : collectAzureResourceGroup [] []
      = Except.ok [[(PublisherId.resourceGroup, NewMetricsList)]] := rfl
  have hcp : collectPrincipals "s1" (fun _ => []) []
      = Except.ok [[(PublisherId.principal, NewMetricsList)]] := by
    rw [collectPrincipals, hchunknil]
    rfl
  have h2 : collectRoleAssignments "s1" [] (fun _ => [])
      = Except.ok [[(PublisherId.principal, NewMetricsList)],
                   [(PublisherId.roleAssignment, NewMetricsList)]] := by
    rw [show collectRoleAssignments "s1" [] (fun _ => [])
          = (match collectPrincipals "s1" (fun _ => []) [] with
             | Except.error e => Except.error e
             | Except.ok principalEmissions =>
               Except.ok (principalEmissions
                 ++ [[(PublisherId.roleAssignment, NewMetricsList)]])) from rfl,
        hcp]
    rfl
  have h3 : MetricsCollectorAzureRmDatabase.Collect "s1" [] (Except.ok [])
        (Except.ok [])
      = Except.ok
          [[(PublisherId.database, NewMetricsList),
            (PublisherId.databaseStatus, NewMetricsList)],
           [(PublisherId.database, NewMetricsList),
            (PublisherId.databaseStatus, NewMetricsList)]] := rfl
  exact ⟨h1, collectors_emit_once_per_publisher.1 [] [] _ h1, h2,
    collectors_emit_once_per_publisher.2.2.2.1 "s1" [] (fun _ => []) _ h2, h3,
    collectors_emit_once_per_publisher.2.2.2.2.2.2 "s1" []
      (Except.ok []) (Except.ok []) _ h3⟩

/-- C1 counterexample: in collectRoleDefinitions, a failure fetching the
second page (NextWithContext non-nil) does not abort the invocation:
the loop breaks and the callback is still sent, emitting a partial
MetricSet holding only the first page's row. -/
theorem collectRoleDefinitions_partial_emission :
    collectRoleDefinitions "s1"
        [Except.ok [roleDefCE], Except.error ApiErr.apiFailure]
      = Except.ok [[(PublisherId.roleDefinition,
          NewMetricsList.AddInfo (roleDefinitionInfoLabels "s1" roleDefCE))]] ∧
    (NewMetricsList.AddInfo (roleDefinitionInfoLabels "s1" roleDefCE)).rows
      ≠ [] :=
  ⟨rfl, by simp [MetricsList.AddInfo, NewMetricsList]⟩

/-- C1 amended: in the pager-based collectors (collectAzureResourceGroup
and collectAzureResources) any page-fetch failure aborts the invocation
with nothing emitted; in the iterator-based IAM collectors only a
failure of the initial ListComplete call aborts — a failure advancing to
a later page silently stops the iteration and the invocation still
emits the MetricSet built from the pages already fetched. -/
theorem pagination_abort_policy :
    (∀ rgTags (pages : List (PageResult ResourceGroup)) e,
       Except.error e ∈ pages →
       ∃ e2, collectAzureResourceGroup rgTags pages = Except.error e2) ∧
    (∀ resTags (pages : List (PageResult Resource)) e,
       Except.error e ∈ pages →
       ∃ e2, collectAzureResources resTags pages = Except.error e2) ∧
    (∀ subscriptionID e rest,
       collectRoleDefinitions subscriptionID (Except.error e :: rest)
         = Except.error e) ∧
    (∀ subscriptionID p e rest,
       collectRoleDefinitions subscriptionID
           (Except.ok p :: Except.error e :: rest)
         = collectRoleDefinitions subscriptionID [Except.ok p]) := by
  refine ⟨?_, ?_, ?_, ?_⟩
  · intro rgTags pages e h
    rcases drainPager_mem_error pages e h with ⟨e2, h2⟩
    exact ⟨e2, by rw [collectAzureResourceGroup, h2]⟩
  · intro resTags pages e h
    rcases drainPager_mem_error pages e h with ⟨e2, h2⟩
    exact ⟨e2, by rw [collectAzureResources, h2]⟩
  · intro subscriptionID e rest
    rfl
  · intro subscriptionID p e rest
    rfl

/-- C1 amended witness: concrete aborting and truncating scenarios. -/
theorem pagination_abort_policy_witness :
    (Except.error ApiErr.apiFailure
       ∈ ([Except.error ApiErr.apiFailure] : List (PageResult ResourceGroup))) ∧
    (∃ e2, collectAzureResourceGroup [] [Except.error ApiErr.apiFailure]
       = Except.error e2) ∧
    collectRoleDefinitions "s1" [Except.error ApiErr.apiFailure]
      = Except.error ApiErr.apiFailure ∧
    collectRoleDefinitions "s1"
        [Except.ok [roleDefCE], Except.error ApiErr.apiFailure]
      = collectRoleDefinitions "s1" [Except.ok [roleDefCE]] :=
  ⟨by simp,
   pagination_abort_policy.1 [] [Except.error ApiErr.apiFailure]
     ApiErr.apiFailure (by simp),
   pagination_abort_policy.2.2.1 "s1" ApiErr.apiFailure [],
   pagination_abort_policy.2.2.2 "s1" [roleDefCE] ApiErr.apiFailure []⟩

/-- C2 counterexample: MetricsCollectorGraphApps.Collect performs Reset
and GaugeSet as separate publisher operations, so a concurrent reader
can observe the state right after apps.Reset(): its apps series set is
empty, which is neither the complete pre-apply set nor the complete
post-apply set. -/
theorem graphApps_apply_torn_read :
    graphMidCE ∈ graphAppsApplyStates (graphAppsMetrics [graphAppCE]).1
        (graphAppsMetrics [graphAppCE]).2 graphPreCE ∧
    graphMidCE.apps ≠ graphPreCE.apps ∧
    graphMidCE.apps ≠ (graphAppsMetrics [graphAppCE]).1.GaugeSet := by
  refine ⟨?_, by decide, by decide⟩
  rw [graphAppsApplyStates, graphApplySteps]
  rw [show ([GraphApplyStep.resetApps, GraphApplyStep.resetCreds,
        GraphApplyStep.setApps, GraphApplyStep.setCreds] : List GraphApplyStep).scanl
          (runGraphStep (graphAppsMetrics [graphAppCE]).1
            (graphAppsMetrics [graphAppCE]).2) graphPreCE
        = graphPreCE :: graphMidCE :: _ from rfl]
  exact List.mem_cons_of_mem _ (List.mem_cons_self _ _)

/-- C2 amended: during the GraphApps apply phase a concurrent reader
observes exactly one of five states: the pre-apply state, the state
with apps cleared, the state with both publishers cleared, the state
with apps fully replaced and credentials cleared, and the fully-updated
post-apply state.  Each individual GaugeSet replacement is one atomic
step, but because Reset precedes it as a separate step, the invariant
"complete pre-apply set or complete post-apply set, never a mix" does
not hold for this collector. -/
theorem graphApps_observable_states (appsM credsM : MetricsList)
    (st : GraphAppsState) :
    graphAppsApplyStates appsM credsM st =
      [st,
       { st with apps := [] },
       { apps := [], appsCredentials := [] },
       { apps := appsM.GaugeSet, appsCredentials := [] },
       { apps := appsM.GaugeSet, appsCredentials := credsM.GaugeSet }] := rfl

/-- C8 counterexample: executing MetricsCollectorGraphApps.Collect
itself changes the publishers' series state — the mutation does not wait
for any completion-channel closure. -/
theorem graphApps_collect_mutates_state :
    graphAppsCollect (Except.ok [graphAppCE]) graphPreCE
      = Except.ok { apps := (graphAppsMetrics [graphAppCE]).1.GaugeSet
                    appsCredentials := (graphAppsMetrics [graphAppCE]).2.GaugeSet } ∧
    ({ apps := (graphAppsMetrics [graphAppCE]).1.GaugeSet
       appsCredentials := (graphAppsMetrics [graphAppCE]).2.GaugeSet }
        : GraphAppsState)
      ≠ graphPreCE :=
  ⟨rfl, by decide⟩

/-- C8 amended: the channel-based collectors change no publisher other
than their own, and only when the drain consumer executes the emitted
closures (the tick function below); MetricsCollectorGraphApps.Collect
instead replaces its publishers' state directly inside Collect. -/
theorem channel_collectors_defer_mutation :
    (∀ rgTags pages (st : PubStates) q, q ≠ PublisherId.resourceGroup →
       (match collectAzureResourceGroup rgTags pages with
        | Except.error _ => st
        | Except.ok ems => runDrain st ems) q = st q) ∧
    (∀ rows st, graphAppsCollect (Except.ok rows) st =
       Except.ok { apps := (graphAppsMetrics rows).1.GaugeSet
                   appsCredentials := (graphAppsMetrics rows).2.GaugeSet }) := by
  constructor
  · intro rgTags pages st q hq
    cases hc : collectAzureResourceGroup rgTags pages with
    | error e => rfl
    | ok ems =>
      rcases collectAzureResourceGroup_ok_shape rgTags pages ems hc with ⟨m, rfl⟩
      show (if q = PublisherId.resourceGroup then m.GaugeSet else st q) = st q
      rw [if_neg hq]
  · intro rows st
    rfl

/-- C8 amended witness: a concrete non-owned publisher is untouched by
the resourceGroup collector's tick. -/
theorem channel_collectors_defer_mutation_witness :
    PublisherId.resource ≠ PublisherId.resourceGroup ∧
    (match collectAzureResourceGroup [] [] with
     | Except.error _ => (fun _ => ([] : PublisherState))
     | Except.ok ems => runDrain (fun _ => ([] : PublisherState)) ems)
        PublisherId.resource
      = (fun _ => ([] : PublisherState)) PublisherId.resource :=
  ⟨by decide,
   channel_collectors_defer_mutation.1 [] [] (fun _ => ([] : PublisherState))
     PublisherId.resource (by decide)⟩

/-- C10: the postgresql and mysql collectors guard Sku,
EarliestRestoreDate and ReplicaCapacity behind nil checks — a row
lacking all three still yields a successful invocation — but they
dereference ID, FullyQualifiedDomainName,
StorageProfile.BackupRetentionDays and StorageProfile.StorageMB
unconditionally, so a row in which such a field is absent makes the
invocation abort with a nil-dereference panic instead of emitting a
MetricSet. -/
theorem database_nil_guard_policy :
    (∀ subID cfg id nm loc ver fq ssl geo brd smb tags,
       ∃ ems, collectAzureDatabasePostgresql subID cfg (Except.ok
         [{ id := some id, name := some nm, location := some loc,
            version := ver, sku := none, fullyQualifiedDomainName := some fq,
            sslEnforcement := ssl, earliestRestoreDate := none,
            replicaCapacity := none,
            storageProfile := some { backupRetentionDays := some brd,
                                     geoRedundantBackup := geo,
                                     storageMB := some smb },
            tags := tags }]) = Except.ok ems) ∧
    (∀ subID cfg id nm loc ver ssl geo brd smb tags,
       collectAzureDatabasePostgresql subID cfg (Except.ok
         [{ id := some id, name := some nm, location := some loc,
            version := ver, sku := none, fullyQualifiedDomainName := none,
            sslEnforcement := ssl, earliestRestoreDate := none,
            replicaCapacity := none,
            storageProfile := some { backupRetentionDays := some brd,
                                     geoRedundantBackup := geo,
                                     storageMB := some smb },
            tags := tags }]) = Except.error CollectErr.nilDeref) ∧
    (∀ subID cfg id nm loc ver fq ssl geo tags (brd : Int),
       collectAzureDatabaseMysql subID cfg (Except.ok
         [{ id := some id, name := some nm, location := some loc,
            version := ver, sku := none, fullyQualifiedDomainName := some fq,
            sslEnforcement := ssl, earliestRestoreDate := none,
            replicaCapacity := none,
            storageProfile := some { backupRetentionDays := some brd,
                                     geoRedundantBackup := geo,
                                     storageMB := none },
            tags := tags }]) = Except.error CollectErr.nilDeref) ∧
    (∀ subID cfg id nm loc ver fq ssl geo brd smb tags,
       ∃ ems, collectAzureDatabaseMysql subID cfg (Except.ok
         [{ id := some id, name := some nm, location := some loc,
            version := ver, sku := none, fullyQualifiedDomainName := some fq,
            sslEnforcement := ssl, earliestRestoreDate := none,
            replicaCapacity := none,
            storageProfile := some { backupRetentionDays := some brd,
                                     geoRedundantBackup := geo,
                                     storageMB := some smb },
            tags := tags }]) = Except.ok ems) := by
  refine ⟨?_, ?_, ?_, ?_⟩
  · intro subID cfg id nm loc ver fq ssl geo brd smb tags
    exact ⟨_, rfl⟩
  · intro subID cfg id nm loc ver ssl geo brd smb tags
    rfl
  · intro subID cfg id nm loc ver fq ssl geo tags brd
    rfl
  · intro subID cfg id nm loc ver fq ssl geo brd smb tags
    exact ⟨_, rfl⟩
